import Mathlib

/-!
Shallow embedding of the class-model compiler in `pymyriad/myriad_metaclass.py`.

The Python pipeline (`MyriadMetaclass.__new__` and its helpers) is modelled as pure
functions over ordered association lists (Python `OrderedDict`s keep insertion order and
keep the original position when an existing key is assigned).  Exceptions raised by the
Python code are modelled with `Except PyErr`.  Template rendering and file emission are
out of scope of the claims; a rendered template body is represented abstractly by the
template's name together with the target class name.
-/

set_option autoImplicit false

/-- Model of the `MyriadCType` universe from `myriad_types` as used by the metaclass:
scalar base types (`MVoid`, `MInt`, `MDouble`, `MSizeT`, `MVarArgs`), pointers, a
by-name `struct X` type (the hard-coded `TypeDecl`/`Struct` nodes built in
`_gen_mclass_ptr_scalar` and `_initialize_obj_cls_structs`), the function-pointer
typedef type of a converted method (`mtd.base_type`), and array types
(`MyriadTimeseriesVector` becomes a `SIMUL_LEN`-sized array of `MDouble`). -/
inductive CType where
  | MVoid
  | MInt
  | MDouble
  | MSizeT
  | MVarArgs
  | ptr (base : CType)
  | structRef (name : String)
  | funTypedefTy (name : String)
  | arrTy (base : CType) (len : String)
deriving DecidableEq, Repr

/-- One element of a struct layout: either a scalar declaration (a `MyriadScalar` with
its identifier, type and qualifiers) or an embedded instance of another struct type
(`supercls.obj_struct("_", quals=["const"])` embeds the superclass struct by value, and
the embedded element carries the embedded struct's name and full ordered member list). -/
inductive StructMember where
  | scalar (ident : String) (ty : CType) (quals : List String)
  | embed (ident : String) (structName : String) (members : List StructMember)
      (quals : List String)

/-- `MyriadStructType`: a struct type with a name and an ordered member list. -/
structure MyriadStructType where
  name : String
  members : List StructMember

/-- The identifier of a struct layout element. -/
def memberIdent : StructMember → String
  | .scalar i _ _ => i
  | .embed i _ _ _ => i

/-- Body of a converted method: the docstring taken verbatim, a body translated from the
Python AST (`pyfun_to_cfun` on a non-verbatim method), or a body rendered from a default
template for the named target class (`_fill_in_base_methods`). -/
inductive FunBody where
  | verbatimDoc (text : String)
  | translated (pyName : String)
  | template (templateName : String) (objName : String)
deriving DecidableEq, Repr

/-- Model of a `MyriadFunction` as produced by `pyfun_to_cfun`: identifier, typedef
name (`fun_typedef.name`), parameter list, return type, body, and the
`is_myriadclass_method` attribute re-attached by `_method_organizer_helper`. -/
structure MyriadFun where
  ident : String
  typedef_name : String
  params : List (String × CType)
  ret : CType
  body : FunBody
  is_myriadclass_method : Bool
deriving DecidableEq, Repr

/-- A method as it sits in the class namespace before conversion: the decorated Python
function.  `isVerbatim` models `hasattr(method, "is_myriad_method_verbatim")`,
`isMyriadClass` models `hasattr(method, "is_myriadclass_method")` (the
`_myriadclass_method` decorator sets both flags), and `doc` is `method.__doc__`. -/
structure PyMethod where
  name : String
  params : List (String × CType)
  ret : CType
  doc : Option String
  isVerbatim : Bool
  isMyriadClass : Bool
deriving DecidableEq, Repr

/-- Exceptions raised by the metaclass pipeline. -/
inductive PyErr where
  | notImplementedError (msg : String)
  | typeError (msg : String)
  | exception (msg : String)
  | keyError (key : String)
  | indexError (idx : Nat)
deriving DecidableEq, Repr

/-- An initializer expression occurring in the module-variable section: `NULL`, a plain
identifier expression (pycparser `ID`), a brace-wrapped identifier (the `{ object + 1 }`
sub-initializer of the embedded base), or a `sizeof(struct X)` expression. -/
inductive CInitVal where
  | null
  | id (s : String)
  | bracedId (s : String)
  | sizeofStruct (s : String)
deriving DecidableEq, Repr

/-- One designated row of the hard-coded `static struct MyriadClass object[]` array in
`_init_module_vars`, field by field in declaration order of `struct MyriadClass`. -/
structure MyriadClassInitEntry where
  mclass : CInitVal
  super : CInitVal
  device_class : CInitVal
  size : CInitVal
  my_ctor : CInitVal
  my_dtor : CInitVal
  my_cudafy : CInitVal
  my_decudafy : CInitVal
deriving DecidableEq, Repr

/-- A module-scope variable: either the verbatim `object[]` array literal (kept here in
structured form, row by row as written in the source string) or a scalar module variable
with its type, qualifiers and optional initializer. -/
inductive ModuleVar where
  | verbatimArr (entries : List MyriadClassInitEntry)
  | scalarVar (ty : CType) (quals : List String) (init : Option CInitVal)
deriving DecidableEq, Repr

/-- The per-class data assembled by `MyriadMetaclass.__new__` and stored on the created
class object (namespace entries `obj_name`, `cls_name`, `obj_struct`, `cls_struct`,
`own_methods`, `myriad_methods`, `myriad_module_vars`). -/
structure ClassData where
  obj_name : String
  cls_name : String
  obj_struct : MyriadStructType
  cls_struct : MyriadStructType
  own_methods : List MyriadFun
  myriad_methods : List (String × MyriadFun)
  myriad_module_vars : List (String × ModuleVar)

/-- A chain of built classes: `base` is the `_MyriadObjectBase` placeholder, and every
built class keeps its data together with its (single) superclass, mirroring
`type.__new__(mcs, name, (supercls,), ...)`. -/
inductive ClassChain where
  | base
  | cls (data : ClassData) (supercls : ClassChain)

/-- One member of a class body namespace, already discriminated the way
`_parse_namespace` discriminates values: a tagged myriad method, a plain Python
function or method (ignored), a `_MyriadBase` instance (added as an object variable
under the namespace key), a bare `MyriadCType` (wrapped in a `MyriadScalar` named after
the key), the `MyriadTimeseriesVector` marker, or anything else (dunder keys and
unsupported values, both ignored). -/
inductive NsMember where
  | method (m : PyMethod)
  | pyfunc
  | mvar (v : StructMember)
  | ctype (t : CType)
  | timeseries
  | other

/-- A base-class slot as passed to the metaclass: either a class in the Myriad chain
(so `issubclass(base, _MyriadObjectBase)` holds) or some unrelated class. -/
inductive PyBase where
  | myriad (c : ClassChain)
  | other (name : String)

/-! ### Ordered-dictionary operations -/

/-- `OrderedDict` assignment `d[k] = v`: replaces the value in place if the key exists
(keeping its position), otherwise appends the pair at the end. -/
def odSet {α : Type} : List (String × α) → String → α → List (String × α)
  | [], k, v => [(k, v)]
  | (k1, v1) :: rest, k, v =>
    if k1 == k then (k, v) :: rest else (k1, v1) :: odSet rest k v

/-- `OrderedDict` lookup `d[k]`: the first value stored under `k`, if any. -/
def odGet {α : Type} : List (String × α) → String → Option α
  | [], _ => none
  | (k1, v1) :: rest, k => if k1 == k then some v1 else odGet rest k

/-- `k in d` on an `OrderedDict`. -/
def odContains {α : Type} (d : List (String × α)) (k : String) : Bool :=
  (odGet d k).isSome

/-! ### Method conversion and classification (`_method_organizer_helper`) -/

/-- `method.__doc__ is None or method.__doc__ == ""`. -/
def docEmpty : Option String → Bool
  | none => true
  | some s => s == ""

/-- Modelled from the spec: `pyfun_to_cfun` lives in `ast_function_assembler`, which is
not under `src/`.  Per the spec the conversion keeps the method's name and signature; a
verbatim method's docstring is embedded as its literal body while other bodies are
translated; and the typedef name is derived deterministically from the method name.  The
verbatim C in `MyriadObject` addresses the slots as `my_ctor`, `my_dtor`, `my_cudafy`,
`my_decudafy`, so the typedef name of a method equals the method name. -/
def pyfun_to_cfun (m : PyMethod) (verbatim : Bool) : MyriadFun :=
  { ident := m.name
    typedef_name := m.name
    params := m.params
    ret := m.ret
    body := if verbatim then .verbatimDoc (m.doc.getD "") else .translated m.name
    is_myriadclass_method := false }

/-- Modelled from the spec: membership of a `MyriadFunction` in a `myriad_utils`
`OrderedSet` (`mtd in parent_methods`); both the set type and `MyriadFunction` equality
live outside `src/`.  The spec classifies a declared method as an override exactly when
its name was introduced somewhere in the ancestor chain, so membership compares the
function identifier. -/
def funMem (f : MyriadFun) (s : List MyriadFun) : Bool :=
  s.any (fun g => g.ident == f.ident)

/-- `OrderedSet.union`: keeps the left set's elements and appends the right set's
elements that are not already present. -/
def osUnion (a b : List MyriadFun) : List MyriadFun :=
  a ++ b.filter (fun g => !funMem g a)

/-- The nested `get_parent_methods` of `_method_organizer_helper`: the union of
`own_methods` over the whole ancestor chain, stopping at `_MyriadObjectBase`. -/
def get_parent_methods : ClassChain → List MyriadFun
  | .base => []
  | .cls d sup => osUnion d.own_methods (get_parent_methods sup)

/-- First loop of `_method_organizer_helper`: convert every declared method with
`pyfun_to_cfun`, raising on a verbatim method whose docstring is absent or empty, and
re-attach the `is_myriadclass_method` attribute. -/
def _method_organizer_convert :
    List (String × PyMethod) → Except PyErr (List (String × MyriadFun))
  | [] => .ok []
  | (k, m) :: rest =>
    if m.isVerbatim && docEmpty m.doc then
      .error (.exception "Verbatim method cannot have empty docstring")
    else
      match _method_organizer_convert rest with
      | .error e => .error e
      | .ok rest1 =>
        let f0 := pyfun_to_cfun m m.isVerbatim
        let f := if m.isMyriadClass then { f0 with is_myriadclass_method := true } else f0
        .ok ((k, f) :: rest1)

/-- Second loop of `_method_organizer_helper`: collect `own_methods` (declared methods
neither in the parent methods nor tagged as MyriadClass methods) and add one
function-pointer class variable `my_<typedef name>` per own method. -/
def _method_organizer_loop (parent : List MyriadFun) :
    List (String × MyriadFun) → List MyriadFun → List (String × StructMember) →
    List MyriadFun × List (String × StructMember)
  | [], own, clsVars => (own, clsVars)
  | (_, f) :: rest, own, clsVars =>
    if funMem f parent || f.is_myriadclass_method then
      _method_organizer_loop parent rest own clsVars
    else
      let own1 := if funMem f own then own else own ++ [f]
      let newIdent := "my_" ++ f.typedef_name
      _method_organizer_loop parent rest own1
        (odSet clsVars newIdent (.scalar newIdent (.funTypedefTy f.typedef_name) []))

/-- `_method_organizer_helper`: convert the declared methods, then classify them
against the accumulated parent methods; returns the converted method dictionary, the
`own_methods` ordered set and the updated class-variable dictionary. -/
def _method_organizer_helper (supercls : ClassChain)
    (myriad_methods : List (String × PyMethod))
    (myriad_cls_vars : List (String × StructMember)) :
    Except PyErr
      (List (String × MyriadFun) × List MyriadFun × List (String × StructMember)) :=
  match _method_organizer_convert myriad_methods with
  | .error e => .error e
  | .ok conv =>
    let res := _method_organizer_loop (get_parent_methods supercls) conv [] myriad_cls_vars
    .ok (conv, res.1, res.2)

/-! ### Namespace parsing (`_parse_namespace`) -/

/-- `_parse_namespace`: walk the class namespace in order, collecting tagged myriad
methods into the method dictionary and variable-like members into the object-variable
dictionary; everything else is logged and skipped. -/
def _parse_namespace :
    List (String × NsMember) → List (String × PyMethod) → List (String × StructMember) →
    List (String × PyMethod) × List (String × StructMember)
  | [], mm, ov => (mm, ov)
  | (k, v) :: rest, mm, ov =>
    match v with
    | .method m => _parse_namespace rest (odSet mm k m) ov
    | .pyfunc => _parse_namespace rest mm ov
    | .mvar s => _parse_namespace rest mm (odSet ov k s)
    | .ctype t => _parse_namespace rest mm (odSet ov k (.scalar k t []))
    | .timeseries =>
      _parse_namespace rest mm (odSet ov k (.scalar k (.arrTy .MDouble "SIMUL_LEN") []))
    | .other => _parse_namespace rest mm ov

/-- The myriad-method dictionary extracted from a namespace (first component of
`_parse_namespace` run on empty accumulators). -/
def nsMyriadMethods (ns : List (String × NsMember)) : List (String × PyMethod) :=
  (_parse_namespace ns [] []).1

/-- The object variables a namespace contributes on its own (second component of
`_parse_namespace` run on empty accumulators). -/
def nsObjVars (ns : List (String × NsMember)) : List (String × StructMember) :=
  (_parse_namespace ns [] []).2

/-! ### Struct initialization (`_initialize_obj_cls_structs`) -/

/-- `_gen_mclass_ptr_scalar`: a `const struct MyriadClass *` scalar. -/
def _gen_mclass_ptr_scalar (ident : String) : StructMember :=
  .scalar ident (.ptr (.structRef "MyriadClass")) ["const"]

/-- `_initialize_obj_cls_structs`: the initial object-variable and class-variable
dictionaries.  For a real superclass both structs start with an embedded `const`
instance `_` of the superclass's struct; for `_MyriadObjectBase` the object struct
starts with the `mclass` back-reference and the class struct with the four bookkeeping
fields `_`, `super`, `device_class`, `size`. -/
def _initialize_obj_cls_structs (supercls : ClassChain) :
    List (String × StructMember) × List (String × StructMember) :=
  match supercls with
  | .cls d _ =>
    ([("_", .embed "_" d.obj_struct.name d.obj_struct.members ["const"])],
     [("_", .embed "_" d.cls_struct.name d.cls_struct.members ["const"])])
  | .base =>
    ([("mclass", _gen_mclass_ptr_scalar "mclass")],
     [("_", .scalar "_" (.structRef "MyriadObject") ["const"]),
      ("super", _gen_mclass_ptr_scalar "super"),
      ("device_class", _gen_mclass_ptr_scalar "device_class"),
      ("size", .scalar "size" .MSizeT [])])

/-! ### Module variables (`_init_module_vars`) -/

/-- The two rows of the hard-coded `static struct MyriadClass object[]` initializer
string in `_init_module_vars`, transcribed field by field. -/
def myriad_object_arr : List MyriadClassInitEntry :=
  [{ mclass := .bracedId "object + 1"
     super := .id "object"
     device_class := .null
     size := .sizeofStruct "MyriadObject"
     my_ctor := .id "MyriadObject_ctor"
     my_dtor := .id "MyriadObject_dtor"
     my_cudafy := .id "MyriadObject_cudafy"
     my_decudafy := .id "MyriadObject_decudafy" },
   { mclass := .bracedId "object + 1"
     super := .id "object"
     device_class := .null
     size := .sizeofStruct "MyriadClass"
     my_ctor := .id "MyriadClass_ctor"
     my_dtor := .id "MyriadClass_dtor"
     my_cudafy := .id "MyriadClass_cudafy"
     my_decudafy := .id "MyriadClass_decudafy" }]

/-- `_init_module_vars`: for the root build the verbatim `object[]` array plus the two
`const void *` module variables initialized to `object` and `object + 1`; for every
other build just the two uninitialized module variables. -/
def _init_module_vars (obj_name cls_name : String) (is_myriad_obj : Bool) :
    List (String × ModuleVar) :=
  (if is_myriad_obj then [("object", ModuleVar.verbatimArr myriad_object_arr)] else [])
  ++ [(obj_name, .scalarVar (.ptr .MVoid) ["const"]
        (if is_myriad_obj then some (.id "object") else none)),
      (cls_name, .scalarVar (.ptr .MVoid) ["const"]
        (if is_myriad_obj then some (.id "object + 1") else none))]

/-! ### Lifecycle default filling (`_fill_in_base_methods`) -/

/-- One `if key not in myriad_methods` block of `MyriadObject._fill_in_base_methods`:
copy the receiving class's own method under `key` with its body replaced by the named
default template rendered against the child namespace. -/
def _fill_one (cls_methods : List (String × MyriadFun)) (key templateName : String)
    (child_obj_name : String) (mm : List (String × MyriadFun)) :
    Except PyErr (List (String × MyriadFun)) :=
  if odContains mm key then .ok mm
  else
    match odGet cls_methods key with
    | none => .error (.keyError key)
    | some f => .ok (odSet mm key { f with body := .template templateName child_obj_name })

/-- `supercls._fill_in_base_methods(namespace, myriad_methods)`:
`_MyriadObjectBase._fill_in_base_methods` is a no-op; the classmethod inherited from
`MyriadObject` fills in `ctor`, `cls_cudafy` and `cls_ctor` when the child did not
declare them, copying the receiver's method with a template-rendered body (`dtor`,
`cudafy` and `decudafy` are not filled in). -/
def _fill_in_base_methods (supercls : ClassChain) (child_obj_name : String)
    (mm : List (String × MyriadFun)) : Except PyErr (List (String × MyriadFun)) :=
  match supercls with
  | .base => .ok mm
  | .cls d _ =>
    match _fill_one d.myriad_methods "ctor" "ctor_template" child_obj_name mm with
    | .error e => .error e
    | .ok mm1 =>
      match _fill_one d.myriad_methods "cls_cudafy" "class_cudafy_template"
          child_obj_name mm1 with
      | .error e => .error e
      | .ok mm2 =>
        _fill_one d.myriad_methods "cls_ctor" "class_ctor_template" child_obj_name mm2

/-! ### The metaclass build (`MyriadMetaclass.__new__`) -/

/-- `supercls is _MyriadObjectBase`. -/
def isBaseChain : ClassChain → Bool
  | .base => true
  | .cls _ _ => false

/-- Body of `MyriadMetaclass.__new__` after the base-class checks: initialize the
struct dictionaries, parse the namespace, build the object struct, organize the
methods, build the class struct, fill in missing lifecycle methods, and initialize the
module variables. -/
def MyriadMetaclass_new_core (name : String) (supercls : ClassChain)
    (namespc : List (String × NsMember)) : Except PyErr ClassChain :=
  let structs := _initialize_obj_cls_structs supercls
  let parsed := _parse_namespace namespc [] structs.1
  let obj_struct : MyriadStructType := { name := name, members := parsed.2.map Prod.snd }
  match _method_organizer_helper supercls parsed.1 structs.2 with
  | .error e => .error e
  | .ok (conv, own_methods, cls_vars) =>
    let cls_struct : MyriadStructType :=
      { name := name ++ "Class", members := cls_vars.map Prod.snd }
    match _fill_in_base_methods supercls name conv with
    | .error e => .error e
    | .ok filled =>
      .ok (.cls
        { obj_name := name
          cls_name := name ++ "Class"
          obj_struct := obj_struct
          cls_struct := cls_struct
          own_methods := own_methods
          myriad_methods := filled
          myriad_module_vars := _init_module_vars name (name ++ "Class")
            (isBaseChain supercls) }
        supercls)

/-- `MyriadMetaclass.__new__`: more than one base raises `NotImplementedError`, a base
that is not a subclass of `_MyriadObjectBase` raises `TypeError`, and otherwise the
class is built from its single superclass. -/
def MyriadMetaclass_new (name : String) (bases : List PyBase)
    (namespc : List (String × NsMember)) : Except PyErr ClassChain :=
  if bases.length > 1 then
    .error (.notImplementedError "Multiple inheritance is not supported.")
  else
    match bases with
    | [] => .error (.indexError 0)
    | .other _ :: _ => .error (.typeError "Myriad modules must inherit from MyriadObject")
    | .myriad supercls :: _ => MyriadMetaclass_new_core name supercls namespc

/-- `MyriadMetaclass.myriad_set_attr`, installed as `__setattr__` on every generated
class. -/
def myriad_set_attr {σ α : Type} (self : σ) (argname : String) (argval : α) :
    Except PyErr σ :=
  .error (.notImplementedError "Cannot set object attributes (yet).")

/-- `MyriadMetaclass.myriad_init`, installed as `__init__` on every generated class: it
assigns each keyword argument through `__setattr__`. -/
def myriad_init {σ α : Type} (self : σ) : List (String × α) → Except PyErr σ
  | [] => .ok self
  | (argname, argval) :: rest =>
    match myriad_set_attr self argname argval with
    | .error e => .error e
    | .ok s1 => myriad_init s1 rest

/-- Modelled from the spec: §7 groups the caller-mistake failures under one
`ConfigurationError` category; in the source these are the `NotImplementedError` for
multiple superclasses, the `TypeError` for a non-Myriad superclass and the `Exception`
for an empty verbatim docstring. -/
def specConfigurationError : PyErr → Bool
  | .notImplementedError m => m == "Multiple inheritance is not supported."
  | .typeError m => m == "Myriad modules must inherit from MyriadObject"
  | .exception m => m == "Verbatim method cannot have empty docstring"
  | _ => false

/-! ### The `MyriadObject` root class -/

/-- The class body of `MyriadObject` in declaration order.  The verbatim C bodies are
inert data for the pipeline (only their non-emptiness matters), so the multi-line
docstrings are abbreviated to representative fragments; the `cls_*` methods carry both
verbatim flags, exactly as set by the `_myriadclass_method` decorator.  `__module__`,
`__qualname__`, `__doc__` and the two classmethods are all skipped by
`_parse_namespace` and appear here as `other` members. -/
def MyriadObject_namespace : List (String × NsMember) :=
  [("__module__", .other),
   ("__qualname__", .other),
   ("__doc__", .other),
   ("ctor", .method
     { name := "ctor"
       params := [("self", .ptr .MVoid), ("app", .ptr .MVarArgs)]
       ret := .ptr .MVoid
       doc := some "    return self;"
       isVerbatim := true
       isMyriadClass := false }),
   ("dtor", .method
     { name := "dtor"
       params := [("self", .ptr .MVoid)]
       ret := .MInt
       doc := some "    _my_free(_self); return 0;"
       isVerbatim := true
       isMyriadClass := false }),
   ("cudafy", .method
     { name := "cudafy"
       params := [("self", .ptr .MVoid), ("clobber", .MInt)]
       ret := .ptr .MVoid
       doc := some "    cudaMalloc and cudaMemcpy of self; return n_dev_obj;"
       isVerbatim := true
       isMyriadClass := false }),
   ("decudafy", .method
     { name := "decudafy"
       params := [("self", .ptr .MVoid), ("cuda_self", .ptr .MVoid)]
       ret := .MVoid
       doc := some "    return;"
       isVerbatim := true
       isMyriadClass := false }),
   ("cls_ctor", .method
     { name := "cls_ctor"
       params := [("self", .ptr .MVoid), ("app", .ptr .MVarArgs)]
       ret := .ptr .MVoid
       doc := some "    memcpy superclass slot table, then rebind matched selectors;"
       isVerbatim := true
       isMyriadClass := true }),
   ("cls_dtor", .method
     { name := "cls_dtor"
       params := [("self", .ptr .MVoid)]
       ret := .MInt
       doc := some "    fprintf undefined behavior; return -1;"
       isVerbatim := true
       isMyriadClass := true }),
   ("cls_cudafy", .method
     { name := "cls_cudafy"
       params := [("self", .ptr .MVoid), ("clobber", .MInt)]
       ret := .ptr .MVoid
       doc := some "    memcpy entire class to device; return dev_class;"
       isVerbatim := true
       isMyriadClass := true }),
   ("cls_decudafy", .method
     { name := "cls_decudafy"
       params := [("self", .ptr .MVoid), ("cuda_self", .ptr .MVoid)]
       ret := .MVoid
       doc := some "    fputs undefined behavior; return;"
       isVerbatim := true
       isMyriadClass := true }),
   ("render_templates", .other),
   ("_fill_in_base_methods", .other)]

/-- The build of the `MyriadObject` class itself
(`class MyriadObject(_MyriadObjectBase, metaclass=MyriadMetaclass)`). -/
def MyriadObject_build : Except PyErr ClassChain :=
  MyriadMetaclass_new "MyriadObject" [.myriad .base] MyriadObject_namespace

/-- The built `MyriadObject` root class. -/
def MyriadObject : ClassChain :=
  match MyriadObject_build with
  | .ok c => c
  | .error _ => .base

/-- The `ClassData` of the built `MyriadObject` class. -/
def MyriadObjectData : ClassData :=
  match MyriadObject_build with
  | .ok (.cls d _) => d
  | _ =>
    { obj_name := ""
      cls_name := ""
      obj_struct := { name := "", members := [] }
      cls_struct := { name := "", members := [] }
      own_methods := []
      myriad_methods := []
      myriad_module_vars := [] }

/-! ### Accessors on built classes -/

/-- Instance-struct member list of a built class. -/
def ClassChain.objMembers : ClassChain → List StructMember
  | .base => []
  | .cls d _ => d.obj_struct.members

/-- Class-struct (vtable) member list of a built class. -/
def ClassChain.clsMembers : ClassChain → List StructMember
  | .base => []
  | .cls d _ => d.cls_struct.members

/-- `own_methods` of a built class. -/
def ClassChain.ownMethods : ClassChain → List MyriadFun
  | .base => []
  | .cls d _ => d.own_methods

/-- `myriad_methods` of a built class. -/
def ClassChain.myriadMethods : ClassChain → List (String × MyriadFun)
  | .base => []
  | .cls d _ => d.myriad_methods

/-- `myriad_module_vars` of a built class. -/
def ClassChain.moduleVars : ClassChain → List (String × ModuleVar)
  | .base => []
  | .cls d _ => d.myriad_module_vars

/-! ### Concrete example builds -/

/-- Namespace of a subclass whose class body declares an object variable literally
named `_`: the `OrderedDict` assignment in `_parse_namespace` lands on the key that
`_initialize_obj_cls_structs` used for the embedded superclass element. -/
def Shadow_namespace : List (String × NsMember) := [("_", .ctype .MDouble)]

/-- Build of the `_`-shadowing subclass. -/
def Shadow_build : Except PyErr ClassChain :=
  MyriadMetaclass_new "Shadow" [.myriad MyriadObject] Shadow_namespace

/-- The class built from `Shadow_namespace`. -/
def ShadowClass : ClassChain :=
  match Shadow_build with
  | .ok c => c
  | .error _ => .base

/-- The `fire()` method of the `Neuron(MyriadObject)` example. -/
def Neuron_fire : PyMethod :=
  { name := "fire"
    params := [("self", .ptr .MVoid)]
    ret := .MVoid
    doc := none
    isVerbatim := false
    isMyriadClass := false }

/-- Converted form of `Neuron_fire`. -/
def Neuron_fire_fun : MyriadFun :=
  { ident := "fire"
    typedef_name := "fire"
    params := [("self", .ptr .MVoid)]
    ret := .MVoid
    body := .translated "fire"
    is_myriadclass_method := false }

/-- Namespace of `Neuron(MyriadObject)`: one numeric field and one new method. -/
def Neuron_namespace : List (String × NsMember) :=
  [("rate", .ctype .MDouble), ("fire", .method Neuron_fire)]

/-- Build of `Neuron(MyriadObject)`. -/
def Neuron_build : Except PyErr ClassChain :=
  MyriadMetaclass_new "Neuron" [.myriad MyriadObject] Neuron_namespace

/-- The built `Neuron` class. -/
def NeuronClass : ClassChain :=
  match Neuron_build with
  | .ok c => c
  | .error _ => .base

/-- Build of a subclass of `MyriadObject` declaring no members at all. -/
def Empty_build : Except PyErr ClassChain :=
  MyriadMetaclass_new "Empty" [.myriad MyriadObject] []

/-- The built empty subclass. -/
def EmptySubclass : ClassChain :=
  match Empty_build with
  | .ok c => c
  | .error _ => .base

/-- A `dtor` override whose signature disagrees with the inherited `dtor` (an extra
parameter and a different return type). -/
def BadOverride_dtor : PyMethod :=
  { name := "dtor"
    params := [("self", .ptr .MVoid), ("extra", .MDouble)]
    ret := .MDouble
    doc := some "x"
    isVerbatim := false
    isMyriadClass := false }

/-- Build of the subclass with the signature-incompatible `dtor` override. -/
def BadOverride_build : Except PyErr ClassChain :=
  MyriadMetaclass_new "BadOverride" [.myriad MyriadObject]
    [("dtor", .method BadOverride_dtor)]

/-- The class built from the signature-incompatible override. -/
def BadOverrideClass : ClassChain :=
  match BadOverride_build with
  | .ok c => c
  | .error _ => .base

/-- A `dtor` override with the inherited signature. -/
def Kappa_dtor : PyMethod :=
  { name := "dtor"
    params := [("self", .ptr .MVoid)]
    ret := .MInt
    doc := none
    isVerbatim := false
    isMyriadClass := false }

/-- Build of a subclass declaring only a `dtor` override. -/
def Kappa_build : Except PyErr ClassChain :=
  MyriadMetaclass_new "Kappa" [.myriad MyriadObject] [("dtor", .method Kappa_dtor)]

/-- The class built from the `dtor`-overriding namespace. -/
def KappaClass : ClassChain :=
  match Kappa_build with
  | .ok c => c
  | .error _ => .base

/-- A class-internal (`_myriadclass_method`) method fixture. -/
def ClsFoo_method : PyMethod :=
  { name := "cls_foo"
    params := [("self", .ptr .MVoid)]
    ret := .MVoid
    doc := some "x"
    isVerbatim := true
    isMyriadClass := true }

/-- Converted form of `ClsFoo_method`. -/
def ClsFoo_fun : MyriadFun :=
  { ident := "cls_foo"
    typedef_name := "cls_foo"
    params := [("self", .ptr .MVoid)]
    ret := .MVoid
    body := .verbatimDoc "x"
    is_myriadclass_method := true }

/-- A one-class chain unrelated to `MyriadObject` whose `own_methods` introduce the
same four method names with different signatures, typedef names and bodies: its
accumulated slot-name table coincides with `MyriadObject`'s. -/
def AltChainData : ClassData :=
  { obj_name := "Alt"
    cls_name := "AltClass"
    obj_struct := ⟨"Alt", []⟩
    cls_struct := ⟨"AltClass", []⟩
    own_methods :=
      [{ ident := "ctor", typedef_name := "alt_a", params := [], ret := .MInt,
         body := .translated "alt_ctor", is_myriadclass_method := false },
       { ident := "dtor", typedef_name := "alt_b", params := [], ret := .MInt,
         body := .translated "alt_dtor", is_myriadclass_method := false },
       { ident := "cudafy", typedef_name := "alt_c", params := [], ret := .MInt,
         body := .translated "alt_cudafy", is_myriadclass_method := false },
       { ident := "decudafy", typedef_name := "alt_d", params := [], ret := .MInt,
         body := .translated "alt_decudafy", is_myriadclass_method := false }]
    myriad_methods := []
    myriad_module_vars := [] }

/-- The chain formed by `AltChainData` alone. -/
def AltChain : ClassChain := .cls AltChainData .base

/-- A verbatim method with an empty docstring. -/
def EmptyDoc_method : PyMethod :=
  { name := "bad"
    params := [("self", .ptr .MVoid)]
    ret := .MVoid
    doc := some ""
    isVerbatim := true
    isMyriadClass := false }

/-- The `ClassData` record assembled by a successful run of `MyriadMetaclass_new_core`,
written out as a function of the build inputs and of the organizer's outputs (used to
state inversion facts about the build). -/
def builtClassData (name : String) (s : ClassChain) (ns : List (String × NsMember))
    (own : List MyriadFun) (cv : List (String × StructMember))
    (filled : List (String × MyriadFun)) : ClassData :=
  { obj_name := name
    cls_name := name ++ "Class"
    obj_struct := ⟨name,
      ((_parse_namespace ns [] (_initialize_obj_cls_structs s).1).2).map Prod.snd⟩
    cls_struct := ⟨name ++ "Class", cv.map Prod.snd⟩
    own_methods := own
    myriad_methods := filled
    myriad_module_vars := _init_module_vars name (name ++ "Class") (isBaseChain s) }

/-! ### Lemmas about ordered dictionaries -/

theorem odGet_odSet_self {α : Type} (d : List (String × α)) (k : String) (v : α) :
    odGet (odSet d k v) k = some v := by
  induction d with
  | nil => simp [odSet, odGet]
  | cons x rest ih =>
    obtain ⟨k1, v1⟩ := x
    cases h : k1 == k with
    | true => simp [odSet, h, odGet]
    | false => simp [odSet, h, odGet, ih]

theorem odGet_odSet_ne {α : Type} (d : List (String × α)) (k k1 : String) (v : α)
    (h : k1 ≠ k) : odGet (odSet d k v) k1 = odGet d k1 := by
  induction d with
  | nil =>
    have hk : (k == k1) = false := by
      simp only [beq_eq_false_iff_ne]
      exact fun he => h he.symm
    simp [odSet, odGet, hk]
  | cons x rest ih =>
    obtain ⟨k2, v2⟩ := x
    cases h2 : k2 == k with
    | true =>
      have hk : (k == k1) = false := by
        simp only [beq_eq_false_iff_ne]
        exact fun he => h he.symm
      have h2k : k2 = k := by simpa [beq_iff_eq] using h2
      have h2k1 : (k2 == k1) = false := by
        simp only [beq_eq_false_iff_ne]
        exact fun he => h (h2k ▸ he).symm
      simp [odSet, h2, odGet, hk, h2k1]
    | false => simp [odSet, h2, odGet, ih]

theorem odContains_odSet_self {α : Type} (d : List (String × α)) (k : String) (v : α) :
    odContains (odSet d k v) k = true := by
  simp [odContains, odGet_odSet_self]

theorem odContains_odSet_of {α : Type} (d : List (String × α)) (k k1 : String) (v : α)
    (h : odContains d k1 = true) : odContains (odSet d k v) k1 = true := by
  by_cases he : k1 = k
  · subst he; simp [odContains, odGet_odSet_self]
  · simpa [odContains, odGet_odSet_ne d k k1 v he] using h

theorem odContains_odSet_elim {α : Type} (d : List (String × α)) (k k1 : String) (v : α)
    (h : odContains (odSet d k v) k1 = true) : k1 = k ∨ odContains d k1 = true := by
  by_cases he : k1 = k
  · exact Or.inl he
  · right; simpa [odContains, odGet_odSet_ne d k k1 v he] using h

theorem odSet_cons_ne {α : Type} (x : String × α) (d : List (String × α))
    (k : String) (v : α) (h : x.1 ≠ k) : odSet (x :: d) k v = x :: odSet d k v := by
  obtain ⟨k1, v1⟩ := x
  have hk : (k1 == k) = false := by simpa only [beq_eq_false_iff_ne] using h
  simp [odSet, hk]

/-- `odContains` only looks at the key column. -/
theorem odContains_eq_keys_any {α : Type} (d : List (String × α)) (k : String) :
    odContains d k = (d.map Prod.fst).any (fun s => s == k) := by
  induction d with
  | nil => simp [odContains, odGet]
  | cons x rest ih =>
    obtain ⟨k1, v1⟩ := x
    cases h : k1 == k with
    | true => simp [odContains, odGet, h]
    | false => simpa [odContains, odGet, h] using ih

theorem odContains_eq_of_keys {α β : Type} (d : List (String × α)) (d1 : List (String × β))
    (h : d.map Prod.fst = d1.map Prod.fst) (k : String) :
    odContains d k = odContains d1 k := by
  rw [odContains_eq_keys_any, odContains_eq_keys_any, h]

/-! ### Lemmas about `_parse_namespace` -/

theorem parse_fst_ov (ns : List (String × NsMember)) (mm : List (String × PyMethod))
    (ov ov1 : List (String × StructMember)) :
    (_parse_namespace ns mm ov).1 = (_parse_namespace ns mm ov1).1 := by
  induction ns generalizing mm ov ov1 with
  | nil => simp [_parse_namespace]
  | cons x rest ih =>
    obtain ⟨k, v⟩ := x
    cases v <;> simp [_parse_namespace] <;> apply ih

theorem parse_snd_cons (ns : List (String × NsMember)) (mm : List (String × PyMethod))
    (x : String × StructMember) (ov : List (String × StructMember))
    (h : ∀ kv ∈ ns, kv.1 ≠ x.1) :
    (_parse_namespace ns mm (x :: ov)).2 = x :: (_parse_namespace ns mm ov).2 := by
  induction ns generalizing mm ov with
  | nil => simp [_parse_namespace]
  | cons y rest ih =>
    obtain ⟨k, v⟩ := y
    have hk : x.1 ≠ k := fun he => (h (k, v) (by simp)) he.symm
    have hrest : ∀ kv ∈ rest, kv.1 ≠ x.1 := fun kv hm => h kv (by simp [hm])
    cases v with
    | method m => simpa [_parse_namespace] using ih (odSet mm k m) ov hrest
    | pyfunc => simpa [_parse_namespace] using ih mm ov hrest
    | mvar s =>
      rw [_parse_namespace, _parse_namespace,
        odSet_cons_ne x ov k s hk]
      exact ih mm (odSet ov k s) hrest
    | ctype t =>
      rw [_parse_namespace, _parse_namespace,
        odSet_cons_ne x ov k (.scalar k t []) hk]
      exact ih mm (odSet ov k (.scalar k t [])) hrest
    | timeseries =>
      rw [_parse_namespace, _parse_namespace,
        odSet_cons_ne x ov k (.scalar k (.arrTy .MDouble "SIMUL_LEN") []) hk]
      exact ih mm (odSet ov k (.scalar k (.arrTy .MDouble "SIMUL_LEN") [])) hrest
    | other => simpa [_parse_namespace] using ih mm ov hrest

/-! ### Lemmas about `_method_organizer_convert` -/

theorem convert_error_msg (ms : List (String × PyMethod)) (e : PyErr)
    (h : _method_organizer_convert ms = .error e) :
    e = .exception "Verbatim method cannot have empty docstring" := by
  induction ms generalizing e with
  | nil => simp [_method_organizer_convert] at h
  | cons x rest ih =>
    obtain ⟨k, m⟩ := x
    rw [_method_organizer_convert] at h
    split at h
    · injection h with h1
      exact h1.symm
    · cases hc : _method_organizer_convert rest with
      | error e1 =>
        rw [hc] at h
        injection h with h1
        exact h1 ▸ ih e1 hc
      | ok rest1 => rw [hc] at h; simp at h

theorem convert_keys (ms : List (String × PyMethod)) (conv : List (String × MyriadFun))
    (h : _method_organizer_convert ms = .ok conv) :
    conv.map Prod.fst = ms.map Prod.fst := by
  induction ms generalizing conv with
  | nil =>
    rw [_method_organizer_convert] at h
    injection h with h1
    simp [← h1]
  | cons x rest ih =>
    obtain ⟨k, m⟩ := x
    rw [_method_organizer_convert] at h
    split at h
    · simp at h
    · cases hc : _method_organizer_convert rest with
      | error e1 => rw [hc] at h; simp at h
      | ok rest1 =>
        rw [hc] at h
        injection h with h1
        simp [← h1, ih rest1 hc]

theorem convert_tn (ms : List (String × PyMethod)) (conv : List (String × MyriadFun))
    (h : _method_organizer_convert ms = .ok conv) :
    ∀ kf ∈ conv, kf.2.typedef_name = kf.2.ident := by
  induction ms generalizing conv with
  | nil =>
    rw [_method_organizer_convert] at h
    injection h with h1
    simp [← h1]
  | cons x rest ih =>
    obtain ⟨k, m⟩ := x
    rw [_method_organizer_convert] at h
    split at h
    · simp at h
    · cases hc : _method_organizer_convert rest with
      | error e1 => rw [hc] at h; simp at h
      | ok rest1 =>
        rw [hc] at h
        injection h with h1
        intro kf hkf
        rw [← h1] at hkf
        rcases List.mem_cons.mp hkf with he | hm
        · subst he
          cases hmc : m.isMyriadClass <;> simp [hmc, pyfun_to_cfun]
        · exact ih rest1 hc kf hm

theorem convert_error_iff (ms : List (String × PyMethod)) :
    _method_organizer_convert ms
        = .error (.exception "Verbatim method cannot have empty docstring")
      ↔ ∃ km ∈ ms, km.2.isVerbatim = true ∧ docEmpty km.2.doc = true := by
  induction ms with
  | nil => simp [_method_organizer_convert]
  | cons x rest ih =>
    obtain ⟨k, m⟩ := x
    rw [_method_organizer_convert]
    by_cases hv : (m.isVerbatim && docEmpty m.doc) = true
    · rw [if_pos hv]
      constructor
      · intro _
        exact ⟨(k, m), by simp, Bool.and_eq_true_iff.mp hv⟩
      · intro _; rfl
    · rw [if_neg hv]
      cases hc : _method_organizer_convert rest with
      | error e1 =>
        constructor
        · intro h
          injection h with h1
          rcases ih.mp (by rw [hc, h1]) with ⟨km, hkm, hp⟩
          exact ⟨km, by simp [hkm], hp⟩
        · intro hex
          rcases hex with ⟨km, hkm, hp⟩
          rcases List.mem_cons.mp hkm with he | hm
          · exact absurd (by rw [he] at hp; exact Bool.and_eq_true_iff.mpr hp) hv
          · have := ih.mpr ⟨km, hm, hp⟩
            rw [hc] at this
            exact this
      | ok rest1 =>
        constructor
        · intro h; simp at h
        · intro hex
          rcases hex with ⟨km, hkm, hp⟩
          rcases List.mem_cons.mp hkm with he | hm
          · exact absurd (by rw [he] at hp; exact Bool.and_eq_true_iff.mpr hp) hv
          · have := ih.mpr ⟨km, hm, hp⟩
            rw [hc] at this
            simp at this

/-! ### Lemmas about `funMem` and `_method_organizer_loop` -/

theorem funMem_append (g : MyriadFun) (a b : List MyriadFun) :
    funMem g (a ++ b) = (funMem g a || funMem g b) := by
  simp [funMem, List.any_append]

theorem funMem_ident_eq (f g : MyriadFun) (l : List MyriadFun) (h : f.ident = g.ident) :
    funMem f l = funMem g l := by
  simp [funMem, h]

theorem funMem_exists (g : MyriadFun) (l : List MyriadFun) (h : funMem g l = true) :
    ∃ g1 ∈ l, g1.ident = g.ident := by
  simpa [funMem, List.any_eq_true, beq_iff_eq] using h

theorem loop_funMem_mono (p : List MyriadFun) (conv : List (String × MyriadFun)) :
    ∀ (own : List MyriadFun) (cv : List (String × StructMember)) (g : MyriadFun),
      funMem g own = true → funMem g (_method_organizer_loop p conv own cv).1 = true := by
  induction conv with
  | nil => intro own cv g h; simpa [_method_organizer_loop] using h
  | cons x rest ih =>
    intro own cv g h
    obtain ⟨k, f⟩ := x
    rw [_method_organizer_loop]
    split
    · exact ih own cv g h
    · by_cases hf : funMem f own = true
      · simpa [hf] using ih own _ g h
      · have h1 : funMem g (own ++ [f]) = true := by
          rw [funMem_append]
          simp [h]
        simpa [hf] using ih (own ++ [f]) _ g h1

theorem loop_mem_mono (p : List MyriadFun) (conv : List (String × MyriadFun)) :
    ∀ (own : List MyriadFun) (cv : List (String × StructMember)) (g : MyriadFun),
      g ∈ own → g ∈ (_method_organizer_loop p conv own cv).1 := by
  induction conv with
  | nil => intro own cv g h; simpa [_method_organizer_loop] using h
  | cons x rest ih =>
    intro own cv g h
    obtain ⟨k, f⟩ := x
    rw [_method_organizer_loop]
    split
    · exact ih own cv g h
    · by_cases hf : funMem f own = true
      · simpa [hf] using ih own _ g h
      · have h1 : g ∈ own ++ [f] := List.mem_append.mpr (Or.inl h)
        simpa [hf] using ih (own ++ [f]) _ g h1

theorem loop_parent_frozen (p : List MyriadFun) (conv : List (String × MyriadFun)) :
    ∀ (own : List MyriadFun) (cv : List (String × StructMember)) (g : MyriadFun),
      funMem g p = true →
      funMem g (_method_organizer_loop p conv own cv).1 = funMem g own := by
  induction conv with
  | nil => intro own cv g _; simp [_method_organizer_loop]
  | cons x rest ih =>
    intro own cv g hg
    obtain ⟨k, f⟩ := x
    rw [_method_organizer_loop]
    split
    · exact ih own cv g hg
    · next hcond =>
      have hcondf : (funMem f p || f.is_myriadclass_method) = false := by
        simpa using hcond
      have hfp : funMem f p = false := (Bool.or_eq_false_iff.mp hcondf).1
      have hne : (f.ident == g.ident) = false := by
        rw [beq_eq_false_iff_ne]
        intro he
        rw [funMem_ident_eq f g p he, hg] at hfp
        simp at hfp
      by_cases hf : funMem f own = true
      · simpa [hf] using ih own _ g hg
      · have hext : funMem g (own ++ [f]) = funMem g own := by
          rw [funMem_append]
          simp [funMem, hne]
        simpa [hf, hext] using ih (own ++ [f]) _ g hg

theorem loop_cv_mono (p : List MyriadFun) (conv : List (String × MyriadFun)) :
    ∀ (own : List MyriadFun) (cv : List (String × StructMember)) (k : String),
      odContains cv k = true →
      odContains (_method_organizer_loop p conv own cv).2 k = true := by
  induction conv with
  | nil => intro own cv k h; simpa [_method_organizer_loop] using h
  | cons x rest ih =>
    intro own cv k h
    obtain ⟨k1, f⟩ := x
    rw [_method_organizer_loop]
    split
    · exact ih own cv k h
    · by_cases hf : funMem f own = true
      · simpa [hf] using ih own _ k (odContains_odSet_of _ _ _ _ h)
      · simpa [hf] using ih (own ++ [f]) _ k (odContains_odSet_of _ _ _ _ h)

theorem loop_new (p : List MyriadFun) (conv : List (String × MyriadFun)) :
    ∀ (own : List MyriadFun) (cv : List (String × StructMember)) (k : String)
      (f : MyriadFun), (k, f) ∈ conv → funMem f p = false →
      f.is_myriadclass_method = false →
      funMem f (_method_organizer_loop p conv own cv).1 = true ∧
      odContains (_method_organizer_loop p conv own cv).2 ("my_" ++ f.typedef_name)
        = true := by
  induction conv with
  | nil => intro own cv k f h _ _; simp at h
  | cons x rest ih =>
    intro own cv k f hmem hfp hmc
    obtain ⟨k1, f1⟩ := x
    rcases List.mem_cons.mp hmem with he | hm
    · obtain ⟨hk1, hf1⟩ := Prod.mk.injEq .. ▸ he
      subst hf1
      rw [_method_organizer_loop]
      split
      · next hcond => rw [hfp, hmc] at hcond; simp at hcond
      · constructor
        · by_cases hf : funMem f own = true
          · simpa [hf] using loop_funMem_mono p rest own _ f hf
          · have h1 : funMem f (own ++ [f]) = true := by
              rw [funMem_append]; simp [funMem]
            simpa [hf] using loop_funMem_mono p rest (own ++ [f]) _ f h1
        · by_cases hf : funMem f own = true
          · simpa [hf] using
              loop_cv_mono p rest own _ _ (odContains_odSet_self cv _ _)
          · simpa [hf] using
              loop_cv_mono p rest (own ++ [f]) _ _ (odContains_odSet_self cv _ _)
    · rw [_method_organizer_loop]
      split
      · exact ih own cv k f hm hfp hmc
      · by_cases hf : funMem f1 own = true
        · simpa [hf] using ih own _ k f hm hfp hmc
        · simpa [hf] using ih (own ++ [f1]) _ k f hm hfp hmc

theorem loop_own_src (p : List MyriadFun) (conv : List (String × MyriadFun)) :
    ∀ (own : List MyriadFun) (cv : List (String × StructMember)) (g : MyriadFun),
      g ∈ (_method_organizer_loop p conv own cv).1 →
      g ∈ own ∨ ∃ kf ∈ conv, g = kf.2 ∧ funMem kf.2 p = false ∧
        kf.2.is_myriadclass_method = false := by
  induction conv with
  | nil => intro own cv g h; exact Or.inl (by simpa [_method_organizer_loop] using h)
  | cons x rest ih =>
    intro own cv g h
    obtain ⟨k1, f1⟩ := x
    rw [_method_organizer_loop] at h
    split at h
    · rcases ih own cv g h with h1 | ⟨kf, hkf, hp⟩
      · exact Or.inl h1
      · exact Or.inr ⟨kf, by simp [hkf], hp⟩
    · next hcond =>
      have hcondf : (funMem f1 p || f1.is_myriadclass_method) = false := by
        simpa using hcond
      by_cases hf : funMem f1 own = true
      · rw [if_pos hf] at h
        rcases ih own _ g h with h1 | ⟨kf, hkf, hp⟩
        · exact Or.inl h1
        · exact Or.inr ⟨kf, by simp [hkf], hp⟩
      · rw [if_neg hf] at h
        rcases ih (own ++ [f1]) _ g h with h1 | ⟨kf, hkf, hp⟩
        · rcases List.mem_append.mp h1 with h2 | h2
          · exact Or.inl h2
          · have hg : g = f1 := by simpa using h2
            exact Or.inr ⟨(k1, f1), by simp, by
              subst hg
              exact ⟨rfl, (Bool.or_eq_false_iff.mp hcondf).1,
                (Bool.or_eq_false_iff.mp hcondf).2⟩⟩
        · exact Or.inr ⟨kf, by simp [hkf], hp⟩

theorem loop_cv_keys (p : List MyriadFun) (conv : List (String × MyriadFun)) :
    ∀ (own : List MyriadFun) (cv : List (String × StructMember)),
      (∀ kf ∈ conv, kf.2.typedef_name = kf.2.ident) →
      (∀ g ∈ own, g.typedef_name = g.ident) →
      ∀ k, odContains (_method_organizer_loop p conv own cv).2 k = true →
      odContains cv k = true ∨
        ∃ g ∈ (_method_organizer_loop p conv own cv).1,
          k = "my_" ++ g.typedef_name := by
  induction conv with
  | nil =>
    intro own cv _ _ k h
    exact Or.inl (by simpa [_method_organizer_loop] using h)
  | cons x rest ih =>
    intro own cv hconv hown k h
    obtain ⟨k1, f1⟩ := x
    have hf1tn : f1.typedef_name = f1.ident := hconv (k1, f1) (by simp)
    have hconvr : ∀ kf ∈ rest, kf.2.typedef_name = kf.2.ident :=
      fun kf hm => hconv kf (by simp [hm])
    rw [_method_organizer_loop] at h ⊢
    split at h <;> rename_i hcond
    · rw [if_pos hcond]
      exact ih own cv hconvr hown k h
    · rw [if_neg hcond]
      by_cases hf : funMem f1 own = true
      · rw [if_pos hf] at h ⊢
        have hown1 := hown
        rcases ih own _ hconvr hown1 k h with h1 | h1
        · rcases odContains_odSet_elim cv _ k _ h1 with he | h2
          · subst he
            rcases funMem_exists f1 own hf with ⟨g0, hg0, hg0i⟩
            refine Or.inr ⟨g0, loop_mem_mono p rest own _ g0 hg0, ?_⟩
            rw [hown g0 hg0, hg0i, ← hf1tn]
          · exact Or.inl h2
        · exact Or.inr h1
      · rw [if_neg hf] at h ⊢
        have hown1 : ∀ g ∈ own ++ [f1], g.typedef_name = g.ident := by
          intro g hg
          rcases List.mem_append.mp hg with h2 | h2
          · exact hown g h2
          · have : g = f1 := by simpa using h2
            rw [this, hf1tn]
        rcases ih (own ++ [f1]) _ hconvr hown1 k h with h1 | h1
        · rcases odContains_odSet_elim cv _ k _ h1 with he | h2
          · subst he
            refine Or.inr ⟨f1, loop_mem_mono p rest (own ++ [f1]) _ f1
              (List.mem_append.mpr (Or.inr (by simp))), rfl⟩
          · exact Or.inl h2
        · exact Or.inr h1

/-! ### Inversion lemmas for the helper, the filler and the build -/

theorem helper_ok_inv (s : ClassChain) (ms : List (String × PyMethod))
    (cv0 : List (String × StructMember)) (conv : List (String × MyriadFun))
    (own : List MyriadFun) (cv : List (String × StructMember))
    (h : _method_organizer_helper s ms cv0 = .ok (conv, own, cv)) :
    _method_organizer_convert ms = .ok conv ∧
    own = (_method_organizer_loop (get_parent_methods s) conv [] cv0).1 ∧
    cv = (_method_organizer_loop (get_parent_methods s) conv [] cv0).2 := by
  rw [_method_organizer_helper] at h
  cases hc : _method_organizer_convert ms with
  | error e => rw [hc] at h; simp at h
  | ok conv1 =>
    rw [hc] at h
    injection h with h1
    simp only [Prod.mk.injEq] at h1
    obtain ⟨h2, h3, h4⟩ := h1
    subst h2
    exact ⟨rfl, h3.symm, h4.symm⟩

theorem helper_error_inv (s : ClassChain) (ms : List (String × PyMethod))
    (cv0 : List (String × StructMember)) (e : PyErr)
    (h : _method_organizer_helper s ms cv0 = .error e) :
    _method_organizer_convert ms = .error e := by
  rw [_method_organizer_helper] at h
  cases hc : _method_organizer_convert ms with
  | error e1 => rw [hc] at h; injection h with h1; rw [h1]
  | ok conv1 => rw [hc] at h; simp at h

theorem helper_error_of_convert (s : ClassChain) (ms : List (String × PyMethod))
    (cv0 : List (String × StructMember)) (e : PyErr)
    (h : _method_organizer_convert ms = .error e) :
    _method_organizer_helper s ms cv0 = .error e := by
  rw [_method_organizer_helper, h]

theorem fill_one_ok (cm : List (String × MyriadFun)) (key templateName child : String)
    (mm mm1 : List (String × MyriadFun))
    (h : _fill_one cm key templateName child mm = .ok mm1) :
    odContains mm1 key = true ∧ ∀ k, k ≠ key → odGet mm1 k = odGet mm k := by
  rw [_fill_one] at h
  split at h
  · next hc =>
    injection h with h1
    subst h1
    exact ⟨hc, fun k _ => rfl⟩
  · cases hg : odGet cm key with
    | none => rw [hg] at h; simp at h
    | some f =>
      rw [hg] at h
      injection h with h1
      subst h1
      exact ⟨odContains_odSet_self mm key _,
        fun k hk => odGet_odSet_ne mm key k _ hk⟩

theorem fill_one_error (cm : List (String × MyriadFun)) (key templateName child : String)
    (mm : List (String × MyriadFun)) (e : PyErr)
    (h : _fill_one cm key templateName child mm = .error e) : e = .keyError key := by
  rw [_fill_one] at h
  split at h
  · simp at h
  · cases hg : odGet cm key with
    | none => rw [hg] at h; injection h with h1; rw [h1]
    | some f => rw [hg] at h; simp at h

theorem fill_error_inv (s : ClassChain) (child : String)
    (mm : List (String × MyriadFun)) (e : PyErr)
    (h : _fill_in_base_methods s child mm = .error e) : ∃ k, e = .keyError k := by
  cases s with
  | base => rw [_fill_in_base_methods] at h; simp at h
  | cls d sup =>
    rw [_fill_in_base_methods] at h
    split at h
    · rename_i e1 h1
      injection h with h2
      exact ⟨"ctor", h2 ▸ fill_one_error _ _ _ _ _ _ h1⟩
    · rename_i mm1 h1
      split at h
      · rename_i e1 h2
        injection h with h3
        exact ⟨"cls_cudafy", h3 ▸ fill_one_error _ _ _ _ _ _ h2⟩
      · rename_i mm2 h2
        exact ⟨"cls_ctor", fill_one_error _ _ _ _ _ _ h⟩

theorem fill_ok_cls (d : ClassData) (sup : ClassChain) (child : String)
    (mm filled : List (String × MyriadFun))
    (h : _fill_in_base_methods (.cls d sup) child mm = .ok filled) :
    odContains filled "ctor" = true ∧ odContains filled "cls_cudafy" = true ∧
    odContains filled "cls_ctor" = true ∧
    ∀ k, k ≠ "ctor" → k ≠ "cls_cudafy" → k ≠ "cls_ctor" →
      odGet filled k = odGet mm k := by
  rw [_fill_in_base_methods] at h
  split at h
  · rename_i e1 h1
    simp at h
  · rename_i mm1 h1
    split at h
    · rename_i e1 h2
      simp at h
    · rename_i mm2 h2
      obtain ⟨c1, p1⟩ := fill_one_ok _ _ _ _ _ _ h1
      obtain ⟨c2, p2⟩ := fill_one_ok _ _ _ _ _ _ h2
      obtain ⟨c3, p3⟩ := fill_one_ok _ _ _ _ _ _ h
      refine ⟨?_, ?_, c3, ?_⟩
      · have e1 : odGet mm2 "ctor" = odGet mm1 "ctor" := p2 "ctor" (by decide)
        have e2 : odGet filled "ctor" = odGet mm2 "ctor" := p3 "ctor" (by decide)
        simpa [odContains, e2, e1] using c1
      · have e2 : odGet filled "cls_cudafy" = odGet mm2 "cls_cudafy" :=
          p3 "cls_cudafy" (by decide)
        simpa [odContains, e2] using c2
      · intro k hk1 hk2 hk3
        rw [p3 k hk3, p2 k hk2, p1 k hk1]

theorem core_ok_inv (name : String) (s : ClassChain) (ns : List (String × NsMember))
    (c : ClassChain) (h : MyriadMetaclass_new_core name s ns = .ok c) :
    ∃ conv own cv filled,
      _method_organizer_helper s
          (_parse_namespace ns [] (_initialize_obj_cls_structs s).1).1
          (_initialize_obj_cls_structs s).2 = .ok (conv, own, cv) ∧
      _fill_in_base_methods s name conv = .ok filled ∧
      c = .cls (builtClassData name s ns own cv filled) s := by
  simp only [MyriadMetaclass_new_core] at h
  split at h
  · simp at h
  · rename_i conv own cv heq
    split at h
    · simp at h
    · rename_i filled heq2
      injection h with h1
      exact ⟨conv, own, cv, filled, heq, heq2, h1.symm⟩

theorem core_error_exc_iff (name : String) (s : ClassChain)
    (ns : List (String × NsMember)) :
    MyriadMetaclass_new_core name s ns
        = .error (.exception "Verbatim method cannot have empty docstring")
      ↔ _method_organizer_convert
          (_parse_namespace ns [] (_initialize_obj_cls_structs s).1).1
        = .error (.exception "Verbatim method cannot have empty docstring") := by
  constructor
  · intro h
    simp only [MyriadMetaclass_new_core] at h
    split at h
    · rename_i e heq
      injection h with h1
      exact h1 ▸ helper_error_inv _ _ _ _ heq
    · rename_i conv own cv heq
      split at h
      · rename_i e heq2
        injection h with h1
        obtain ⟨k, hk⟩ := fill_error_inv _ _ _ _ heq2
        rw [hk] at h1
        simp at h1
      · simp at h
  · intro h
    simp only [MyriadMetaclass_new_core]
    rw [helper_error_of_convert s _ (_initialize_obj_cls_structs s).2 _ h]

theorem new_myriad_eq_core (name : String) (s : ClassChain)
    (ns : List (String × NsMember)) :
    MyriadMetaclass_new name [.myriad s] ns = MyriadMetaclass_new_core name s ns := rfl

theorem string_append_left_cancel (a b c : String) (h : a ++ b = a ++ c) : b = c := by
  have hd := congrArg String.data h
  simp only [String.data_append] at hd
  exact String.ext (List.append_cancel_left hd)

theorem funMem_eq_map_any (f : MyriadFun) (p : List MyriadFun) :
    funMem f p = (p.map MyriadFun.ident).any (fun s => s == f.ident) := by
  induction p with
  | nil => rfl
  | cons g rest ih =>
    simp only [funMem, List.any_cons, List.map_cons] at ih ⊢
    rw [ih]

theorem funMem_map_ext (f : MyriadFun) (p1 p2 : List MyriadFun)
    (h : p1.map MyriadFun.ident = p2.map MyriadFun.ident) :
    funMem f p1 = funMem f p2 := by
  rw [funMem_eq_map_any, funMem_eq_map_any, h]

theorem loop_ext (p1 p2 : List MyriadFun)
    (h : p1.map MyriadFun.ident = p2.map MyriadFun.ident)
    (conv : List (String × MyriadFun)) :
    ∀ (own : List MyriadFun) (cv : List (String × StructMember)),
      _method_organizer_loop p1 conv own cv = _method_organizer_loop p2 conv own cv := by
  induction conv with
  | nil => intro own cv; rfl
  | cons x rest ih =>
    intro own cv
    obtain ⟨k, f⟩ := x
    rw [_method_organizer_loop, _method_organizer_loop, funMem_map_ext f p1 p2 h]
    split
    · exact ih own cv
    · exact ih _ _

/-! ### Claim theorems -/

/-- C1 counterexample: the structural-prefix claim fails as universally stated.  The
subclass built from `Shadow_namespace` has superclass `MyriadObject` (not the root
placeholder) and builds successfully, yet its instance-struct layout is the single
scalar field `_` of type double — the declared variable named `_` overwrote the
embedded superclass element in the `OrderedDict`, so the layout's first element is not
an embedded copy of the superclass's instance struct. -/
theorem C1_counterexample :
    Shadow_build = .ok ShadowClass ∧
    ShadowClass.objMembers = [.scalar "_" .MDouble []] := ⟨rfl, rfl⟩

/-- C1 (amended): for every class built with a superclass other than the root
placeholder, provided no namespace entry is named `_`, the instance layout is exactly
one embedded constant copy of the superclass's full instance struct followed by the
class's own parsed object variables in declared order; and the built Root class's
instance layout is the single `mclass` dispatch-table back-reference. -/
theorem C1_layout_embedding (name : String) (d : ClassData) (sup : ClassChain)
    (ns : List (String × NsMember)) (c : ClassChain)
    (hns : ∀ kv ∈ ns, kv.1 ≠ "_")
    (hb : MyriadMetaclass_new name [.myriad (.cls d sup)] ns = .ok c) :
    c.objMembers
      = .embed "_" d.obj_struct.name d.obj_struct.members ["const"]
          :: (nsObjVars ns).map Prod.snd
    ∧ MyriadObject.objMembers = [_gen_mclass_ptr_scalar "mclass"] := by
  rw [new_myriad_eq_core] at hb
  obtain ⟨conv, own, cv, filled, hh, hf, hc⟩ := core_ok_inv _ _ _ _ hb
  refine ⟨?_, rfl⟩
  rw [hc]
  show (builtClassData name (.cls d sup) ns own cv filled).obj_struct.members = _
  rw [builtClassData]
  have hinit : (_initialize_obj_cls_structs (.cls d sup)).1
      = [("_", StructMember.embed "_" d.obj_struct.name d.obj_struct.members ["const"])] :=
    rfl
  rw [hinit,
    parse_snd_cons ns []
      ("_", StructMember.embed "_" d.obj_struct.name d.obj_struct.members ["const"]) []
      hns]
  rfl

/-- C1 witness: the amended structural-prefix statement applied to the concrete
`Neuron(MyriadObject)` build. -/
theorem C1_layout_embedding_witness :
    (∀ kv ∈ Neuron_namespace, kv.1 ≠ "_") ∧
    MyriadMetaclass_new "Neuron" [.myriad (.cls MyriadObjectData .base)] Neuron_namespace
      = .ok NeuronClass ∧
    (NeuronClass.objMembers
      = .embed "_" MyriadObjectData.obj_struct.name MyriadObjectData.obj_struct.members
          ["const"] :: (nsObjVars Neuron_namespace).map Prod.snd
    ∧ MyriadObject.objMembers = [_gen_mclass_ptr_scalar "mclass"]) :=
  ⟨by decide, rfl,
    C1_layout_embedding "Neuron" MyriadObjectData .base Neuron_namespace NeuronClass
      (by decide) rfl⟩

/-- C2 counterexample: a class declaring zero methods does not end up with all four
lifecycle methods.  After default filling, the empty subclass's method table contains
`ctor` (plus the two bootstrap methods `cls_cudafy` and `cls_ctor`) but neither
`dtor`, `cudafy` nor `decudafy`. -/
theorem C2_counterexample :
    Empty_build = .ok EmptySubclass ∧
    odContains EmptySubclass.myriadMethods "ctor" = true ∧
    odContains EmptySubclass.myriadMethods "dtor" = false ∧
    odContains EmptySubclass.myriadMethods "cudafy" = false ∧
    odContains EmptySubclass.myriadMethods "decudafy" = false :=
  ⟨rfl, rfl, rfl, rfl, rfl⟩

/-- C2 (amended): after default filling, every subclass's method table contains `ctor`,
`cls_cudafy` and `cls_ctor` (synthesized from the `ctor_template`,
`class_cudafy_template` and `class_ctor_template` templates against the child namespace
when the class did not declare them); every other method name — in particular `dtor`,
`cudafy` and `decudafy` — is present exactly when the class body declares it. -/
theorem C2_fill_defaults (name : String) (d : ClassData) (sup : ClassChain)
    (ns : List (String × NsMember)) (c : ClassChain)
    (hb : MyriadMetaclass_new name [.myriad (.cls d sup)] ns = .ok c) :
    odContains c.myriadMethods "ctor" = true ∧
    odContains c.myriadMethods "cls_cudafy" = true ∧
    odContains c.myriadMethods "cls_ctor" = true ∧
    ∀ k, k ≠ "ctor" → k ≠ "cls_cudafy" → k ≠ "cls_ctor" →
      odContains c.myriadMethods k = odContains (nsMyriadMethods ns) k := by
  rw [new_myriad_eq_core] at hb
  obtain ⟨conv, own, cv, filled, hh, hf, hc⟩ := core_ok_inv _ _ _ _ hb
  obtain ⟨hconv, _, _⟩ := helper_ok_inv _ _ _ _ _ _ hh
  obtain ⟨c1, c2, c3, p⟩ := fill_ok_cls d sup name conv filled hf
  have hmm : c.myriadMethods = filled := by rw [hc]; rfl
  rw [hmm]
  refine ⟨c1, c2, c3, ?_⟩
  intro k hk1 hk2 hk3
  have h1 : odContains filled k = odContains conv k := by
    simp [odContains, p k hk1 hk2 hk3]
  have h2 : odContains conv k
      = odContains
          (_parse_namespace ns [] (_initialize_obj_cls_structs (.cls d sup)).1).1 k :=
    odContains_eq_of_keys _ _ (convert_keys _ _ hconv) k
  have h3 : (_parse_namespace ns [] (_initialize_obj_cls_structs (.cls d sup)).1).1
      = nsMyriadMethods ns := parse_fst_ov ns [] _ []
  rw [h1, h2, h3]

/-- C2 witness: the amended default-filling statement applied to the concrete
`Kappa(MyriadObject)` build that declares only a `dtor` override. -/
theorem C2_fill_defaults_witness :
    MyriadMetaclass_new "Kappa" [.myriad (.cls MyriadObjectData .base)]
        [("dtor", .method Kappa_dtor)] = .ok KappaClass ∧
    (odContains KappaClass.myriadMethods "ctor" = true ∧
     odContains KappaClass.myriadMethods "cls_cudafy" = true ∧
     odContains KappaClass.myriadMethods "cls_ctor" = true ∧
     ∀ k, k ≠ "ctor" → k ≠ "cls_cudafy" → k ≠ "cls_ctor" →
       odContains KappaClass.myriadMethods k
         = odContains (nsMyriadMethods [("dtor", .method Kappa_dtor)]) k) :=
  ⟨rfl,
    C2_fill_defaults "Kappa" MyriadObjectData .base [("dtor", .method Kappa_dtor)]
      KappaClass rfl⟩

/-- C3: for every converted declared method, a method whose name was introduced
anywhere in the ancestor chain is not added to `own_methods`; a method whose name is
new (and which is not a MyriadClass method) is added to `own_methods` and receives the
class variable keyed by the slot identifier `my_` plus its typedef name; and the final
class-variable dictionary contains no key beyond the initial ones and the slots of the
own methods. -/
theorem C3_method_classification (supercls : ClassChain)
    (methods : List (String × PyMethod)) (clsVars0 : List (String × StructMember))
    (conv : List (String × MyriadFun)) (own : List MyriadFun)
    (cv : List (String × StructMember))
    (h : _method_organizer_helper supercls methods clsVars0 = .ok (conv, own, cv)) :
    (∀ g : MyriadFun, funMem g (get_parent_methods supercls) = true →
      funMem g own = false) ∧
    (∀ kf ∈ conv, funMem kf.2 (get_parent_methods supercls) = false →
      kf.2.is_myriadclass_method = false →
      funMem kf.2 own = true ∧
      odContains cv ("my_" ++ kf.2.typedef_name) = true) ∧
    (∀ k : String, odContains cv k = true →
      odContains clsVars0 k = true ∨ ∃ g ∈ own, k = "my_" ++ g.typedef_name) := by
  obtain ⟨hconv, hown, hcv⟩ := helper_ok_inv _ _ _ _ _ _ h
  subst hown
  subst hcv
  refine ⟨?_, ?_, ?_⟩
  · intro g hg
    rw [loop_parent_frozen _ _ _ _ _ hg]
    rfl
  · intro kf hkf hp hmc
    exact loop_new (get_parent_methods supercls) conv [] clsVars0 kf.1 kf.2
      (by simpa using hkf) hp hmc
  · intro k hk
    exact loop_cv_keys _ _ [] _ (convert_tn _ _ hconv) (by simp) k hk

/-- C3 witness: the classification statement applied to a class declaring the new
method `fire` over the concrete `MyriadObject` chain. -/
theorem C3_method_classification_witness :
    _method_organizer_helper MyriadObject [("fire", Neuron_fire)] []
      = .ok ([("fire", Neuron_fire_fun)], [Neuron_fire_fun],
          [("my_fire", .scalar "my_fire" (.funTypedefTy "fire") [])]) ∧
    ((∀ g : MyriadFun, funMem g (get_parent_methods MyriadObject) = true →
        funMem g [Neuron_fire_fun] = false) ∧
     (∀ kf ∈ [("fire", Neuron_fire_fun)],
        funMem kf.2 (get_parent_methods MyriadObject) = false →
        kf.2.is_myriadclass_method = false →
        funMem kf.2 [Neuron_fire_fun] = true ∧
        odContains [("my_fire", StructMember.scalar "my_fire" (.funTypedefTy "fire") [])]
          ("my_" ++ kf.2.typedef_name) = true) ∧
     (∀ k : String,
        odContains [("my_fire", StructMember.scalar "my_fire" (.funTypedefTy "fire") [])]
          k = true →
        odContains ([] : List (String × StructMember)) k = true ∨
          ∃ g ∈ [Neuron_fire_fun], k = "my_" ++ g.typedef_name)) :=
  ⟨rfl,
    C3_method_classification MyriadObject [("fire", Neuron_fire)] []
      [("fire", Neuron_fire_fun)] [Neuron_fire_fun]
      [("my_fire", .scalar "my_fire" (.funTypedefTy "fire") [])] rfl⟩

/-- C4 counterexample: the MyriadClass-tagged method `cls_ctor` is in the converted
method table of the built `MyriadObject`, yet the class struct has no `my_cls_ctor`
member — its members are exactly the four bookkeeping fields followed by the four
lifecycle slots — so a class-level-internal method does not occupy a vtable slot. -/
theorem C4_counterexample :
    odContains MyriadObject.myriadMethods "cls_ctor" = true ∧
    MyriadObject.ownMethods.map MyriadFun.ident
      = ["ctor", "dtor", "cudafy", "decudafy"] ∧
    MyriadObject.clsMembers.map memberIdent
      = ["_", "super", "device_class", "size",
         "my_ctor", "my_dtor", "my_cudafy", "my_decudafy"] := ⟨rfl, rfl, rfl⟩

/-- C4 (amended): a method tagged `is_myriadclass_method` is excluded from
`own_methods` regardless of the ancestor chain, and it also gets no class-struct
function-pointer member: if its slot key is not among the initial class variables and
no own method shares its typedef name, the final class-variable dictionary does not
contain the key `my_` plus its typedef name. -/
theorem C4_myriadclass_excluded (supercls : ClassChain)
    (methods : List (String × PyMethod)) (clsVars0 : List (String × StructMember))
    (conv : List (String × MyriadFun)) (own : List MyriadFun)
    (cv : List (String × StructMember))
    (h : _method_organizer_helper supercls methods clsVars0 = .ok (conv, own, cv))
    (kf : String × MyriadFun) (hin : kf ∈ conv)
    (hmc : kf.2.is_myriadclass_method = true) :
    kf.2 ∉ own ∧
    (odContains clsVars0 ("my_" ++ kf.2.typedef_name) = false →
     (∀ g ∈ own, g.typedef_name ≠ kf.2.typedef_name) →
     odContains cv ("my_" ++ kf.2.typedef_name) = false) := by
  obtain ⟨hconv, hown, hcv⟩ := helper_ok_inv _ _ _ _ _ _ h
  subst hown
  subst hcv
  constructor
  · intro hmem
    rcases loop_own_src _ _ [] _ kf.2 hmem with h1 | ⟨kf1, _, heq, _, hmcf⟩
    · simp at h1
    · rw [← heq] at hmcf
      rw [hmc] at hmcf
      simp at hmcf
  · intro h0 hdis
    by_contra hcc
    simp only [Bool.not_eq_false] at hcc
    rcases loop_cv_keys _ _ [] _ (convert_tn _ _ hconv) (by simp) _ hcc with h1 | ⟨g, hg, he⟩
    · rw [h0] at h1
      simp at h1
    · exact hdis g hg (string_append_left_cancel "my_" _ _ he.symm)

/-- C4 witness: the amended exclusion statement applied to a class declaring the
MyriadClass-tagged method `cls_foo` over the concrete `MyriadObject` chain. -/
theorem C4_myriadclass_excluded_witness :
    _method_organizer_helper MyriadObject [("cls_foo", ClsFoo_method)] []
      = .ok ([("cls_foo", ClsFoo_fun)], [], []) ∧
    ("cls_foo", ClsFoo_fun) ∈ [("cls_foo", ClsFoo_fun)] ∧
    ClsFoo_fun.is_myriadclass_method = true ∧
    (ClsFoo_fun ∉ ([] : List MyriadFun) ∧
     (odContains ([] : List (String × StructMember))
        ("my_" ++ ClsFoo_fun.typedef_name) = false →
      (∀ g ∈ ([] : List MyriadFun), g.typedef_name ≠ ClsFoo_fun.typedef_name) →
      odContains ([] : List (String × StructMember))
        ("my_" ++ ClsFoo_fun.typedef_name) = false)) :=
  ⟨rfl, by decide, rfl,
    C4_myriadclass_excluded MyriadObject [("cls_foo", ClsFoo_method)] []
      [("cls_foo", ClsFoo_fun)] [] [] rfl ("cls_foo", ClsFoo_fun) (by decide) rfl⟩

/-- C5: method classification is deterministic — it depends on the superclass only
through the accumulated method-name table: two chains whose accumulated own-method
names coincide yield syntactically identical classification results (same converted
methods, same `own_methods`, same slot identifiers) for every declared method list, so
re-running classification on identical inputs is idempotent; moreover, every own
method's slot identifier is derived from its method name alone (its typedef name
equals its identifier, so the slot key is `my_` plus the method name). -/
theorem C5_classification_deterministic (s1 s2 : ClassChain)
    (methods : List (String × PyMethod)) (cv0 : List (String × StructMember))
    (hnames : (get_parent_methods s1).map MyriadFun.ident
      = (get_parent_methods s2).map MyriadFun.ident) :
    _method_organizer_helper s1 methods cv0 = _method_organizer_helper s2 methods cv0 ∧
    (∀ conv own cv, _method_organizer_helper s1 methods cv0 = .ok (conv, own, cv) →
      ∀ g ∈ own, g.typedef_name = g.ident) := by
  constructor
  · rw [_method_organizer_helper, _method_organizer_helper]
    cases hc : _method_organizer_convert methods with
    | error e => rfl
    | ok conv =>
      dsimp only
      rw [loop_ext _ _ hnames conv [] cv0]
  · intro conv own cv h g hg
    obtain ⟨hconv, hown, _⟩ := helper_ok_inv _ _ _ _ _ _ h
    subst hown
    rcases loop_own_src _ _ [] _ g hg with h1 | ⟨kf, hkf, heq, _, _⟩
    · simp at h1
    · rw [heq]
      exact convert_tn _ _ hconv kf hkf

/-- C5 witness: the determinism statement applied to the concrete `MyriadObject` chain
and to a deliberately different chain (`AltChain`) whose accumulated method names
coincide while every signature, typedef name and body differs. -/
theorem C5_classification_deterministic_witness :
    (get_parent_methods MyriadObject).map MyriadFun.ident
      = (get_parent_methods AltChain).map MyriadFun.ident ∧
    (_method_organizer_helper MyriadObject [("fire", Neuron_fire)] []
        = _method_organizer_helper AltChain [("fire", Neuron_fire)] [] ∧
     (∀ conv own cv,
        _method_organizer_helper MyriadObject [("fire", Neuron_fire)] []
          = .ok (conv, own, cv) →
        ∀ g ∈ own, g.typedef_name = g.ident)) :=
  ⟨rfl,
    C5_classification_deterministic MyriadObject AltChain [("fire", Neuron_fire)] []
      rfl⟩

/-- C6 counterexample: building a class whose declared `dtor` override has a signature
incompatible with the inherited `dtor` (an extra parameter and return type double
instead of int) succeeds — no error of any kind is raised; the method is classified as
an override (no own methods), so the claimed `ConfigurationError` does not occur. -/
theorem C6_counterexample :
    BadOverride_build = .ok BadOverrideClass ∧
    (odGet MyriadObject.myriadMethods "dtor").map (fun f => f.ret) = some CType.MInt ∧
    BadOverride_dtor.ret = CType.MDouble ∧
    BadOverrideClass.ownMethods = [] ∧
    CType.MInt ≠ CType.MDouble := ⟨rfl, rfl, rfl, rfl, by decide⟩

/-- C6 (amended): method organization performs no signature-compatibility check at all
— the only error it can raise is the empty-verbatim-docstring one, so an override with
an incompatible signature is accepted exactly like one with a compatible signature. -/
theorem C6_no_signature_check (supercls : ClassChain)
    (methods : List (String × PyMethod)) (clsVars0 : List (String × StructMember))
    (e : PyErr) (h : _method_organizer_helper supercls methods clsVars0 = .error e) :
    e = .exception "Verbatim method cannot have empty docstring" :=
  convert_error_msg _ _ (helper_error_inv _ _ _ _ h)

/-- C6 witness: the only organizer error, exhibited on a concrete erroring input. -/
theorem C6_no_signature_check_witness :
    _method_organizer_helper MyriadObject [("bad", EmptyDoc_method)] []
      = .error (.exception "Verbatim method cannot have empty docstring") ∧
    (PyErr.exception "Verbatim method cannot have empty docstring")
      = .exception "Verbatim method cannot have empty docstring" :=
  ⟨rfl,
    C6_no_signature_check MyriadObject [("bad", EmptyDoc_method)] []
      (.exception "Verbatim method cannot have empty docstring") rfl⟩

/-- C7: building with more than one base raises the multiple-inheritance error, and
building with a single base that is not a Myriad class raises the type error; both are
caller-mistake errors of the spec's `ConfigurationError` category, no class value is
produced, and (the build being a pure function of its inputs) previously built classes
are untouched. -/
theorem C7_superclass_errors (name : String) (bases : List PyBase)
    (ns : List (String × NsMember)) :
    (bases.length > 1 →
      MyriadMetaclass_new name bases ns
          = .error (.notImplementedError "Multiple inheritance is not supported.") ∧
      specConfigurationError
        (.notImplementedError "Multiple inheritance is not supported.") = true) ∧
    (∀ bname : String,
      MyriadMetaclass_new name [.other bname] ns
          = .error (.typeError "Myriad modules must inherit from MyriadObject") ∧
      specConfigurationError
        (.typeError "Myriad modules must inherit from MyriadObject") = true) := by
  constructor
  · intro h
    exact ⟨by rw [MyriadMetaclass_new.eq_def, if_pos h], rfl⟩
  · intro bname
    exact ⟨rfl, rfl⟩

/-- C7 witness: two superclasses on a concrete input. -/
theorem C7_superclass_errors_witness :
    [PyBase.myriad MyriadObject, PyBase.myriad MyriadObject].length > 1 ∧
    (MyriadMetaclass_new "Twice" [.myriad MyriadObject, .myriad MyriadObject] []
        = .error (.notImplementedError "Multiple inheritance is not supported.") ∧
     specConfigurationError
       (.notImplementedError "Multiple inheritance is not supported.") = true) :=
  ⟨by decide,
    (C7_superclass_errors "Twice" [.myriad MyriadObject, .myriad MyriadObject] []).1
      (by decide)⟩

/-- C8: building a class over a Myriad superclass fails with the empty-verbatim
docstring error exactly when some declared myriad method is verbatim with an absent or
empty docstring; in particular a verbatim method with a non-empty docstring never
triggers this failure. -/
theorem C8_verbatim_empty (name : String) (s : ClassChain)
    (ns : List (String × NsMember)) :
    MyriadMetaclass_new name [.myriad s] ns
        = .error (.exception "Verbatim method cannot have empty docstring")
      ↔ ∃ km ∈ nsMyriadMethods ns, km.2.isVerbatim = true ∧ docEmpty km.2.doc = true := by
  rw [new_myriad_eq_core, core_error_exc_iff,
    parse_fst_ov ns [] (_initialize_obj_cls_structs s).1 []]
  exact convert_error_iff _

/-- C9 counterexample: in the Root build, the `super` field of both rows of the
hard-coded vtable initializer array is the identifier `object` — the root vtable array
itself — and not `NULL`, so the superclass-vtable pointer is not null for Root. -/
theorem C9_counterexample :
    odGet MyriadObject.moduleVars "object"
      = some (ModuleVar.verbatimArr myriad_object_arr) ∧
    myriad_object_arr.map (fun en => en.super) = [.id "object", .id "object"] ∧
    CInitVal.id "object" ≠ CInitVal.null := ⟨rfl, rfl, by decide⟩

/-- C9 (amended): for the Root class built alone, the instance layout is the single
dispatch-table back-reference; the vtable layout is the self-referential embedded
record, the superclass-vtable pointer, the accelerator-mirror pointer and the instance
byte size, followed by exactly the four lifecycle slots; `own_methods` is exactly the
four lifecycle methods; and in the hard-coded initializer the accelerator-mirror
pointer is null, the sizes are the two struct sizes, and the superclass-vtable pointer
is the root vtable array itself (not null). -/
theorem C9_root_layout :
    MyriadObject.objMembers = [_gen_mclass_ptr_scalar "mclass"] ∧
    MyriadObject.clsMembers
      = [.scalar "_" (.structRef "MyriadObject") ["const"],
         _gen_mclass_ptr_scalar "super",
         _gen_mclass_ptr_scalar "device_class",
         .scalar "size" .MSizeT [],
         .scalar "my_ctor" (.funTypedefTy "ctor") [],
         .scalar "my_dtor" (.funTypedefTy "dtor") [],
         .scalar "my_cudafy" (.funTypedefTy "cudafy") [],
         .scalar "my_decudafy" (.funTypedefTy "decudafy") []] ∧
    MyriadObject.ownMethods.map MyriadFun.ident
      = ["ctor", "dtor", "cudafy", "decudafy"] ∧
    myriad_object_arr.map (fun en => en.device_class) = [.null, .null] ∧
    myriad_object_arr.map (fun en => en.size)
      = [.sizeofStruct "MyriadObject", .sizeofStruct "MyriadClass"] ∧
    myriad_object_arr.map (fun en => en.super) = [.id "object", .id "object"] :=
  ⟨rfl, rfl, rfl, rfl, rfl, rfl⟩

/-- C10: on every generated class, `__setattr__` always raises `NotImplementedError`;
hence the generated `__init__` raises `NotImplementedError` whenever at least one
keyword argument is supplied, while with no keyword arguments it succeeds and returns
the instance unchanged. -/
theorem C10_setattr_init {σ α : Type} (self : σ) (argname : String) (argval : α)
    (kwargs : List (String × α)) (h : kwargs ≠ []) :
    myriad_set_attr self argname argval
      = .error (.notImplementedError "Cannot set object attributes (yet).") ∧
    myriad_init self kwargs
      = .error (.notImplementedError "Cannot set object attributes (yet).") ∧
    myriad_init self ([] : List (String × α)) = .ok self := by
  refine ⟨rfl, ?_, rfl⟩
  cases kwargs with
  | nil => exact absurd rfl h
  | cons x rest =>
    obtain ⟨k, v⟩ := x
    rfl

/-- C10 witness: a concrete instance with one keyword argument. -/
theorem C10_setattr_init_witness :
    ([("rate", (1 : Nat))] ≠ ([] : List (String × Nat))) ∧
    (myriad_set_attr (0 : Nat) "rate" (1 : Nat)
        = .error (.notImplementedError "Cannot set object attributes (yet).") ∧
     myriad_init (0 : Nat) [("rate", (1 : Nat))]
        = .error (.notImplementedError "Cannot set object attributes (yet).") ∧
     myriad_init (0 : Nat) ([] : List (String × Nat)) = .ok 0) :=
  ⟨by decide, C10_setattr_init 0 "rate" 1 [("rate", 1)] (by decide)⟩
